import Mathlib

/-!
Verification development for the FacturaV server's document-field
normalization and invoice-aggregation engine.

Shallow embedding conventions:
* Python dict-shaped records become fixed Lean structures holding exactly the
  keys that the modelled code reads or writes; metadata keys that no covered
  code path reads (`campos_detectados`, `indice_procesamiento`,
  `tipo_archivo`, ...) are omitted.
* Python numbers are split into `intv` (int) and `floatv` (float).  Float
  arithmetic is modelled exactly over `ℚ`; every monetary value exercised by
  the theorems has an exact binary representation, so the idealization does
  not change any compared result.  Python's `repr` of a float (used by
  f-string interpolation) is modelled as the shortest exact decimal
  expansion, which agrees with CPython on every value produced here.
* `datetime.now()` is passed in explicitly as a preformatted string `now`.
* Azure SDK field objects are collapsed to their `.value`: every read site in
  the source guards with `field and field.value` (or only uses the value), so
  a missing field and a field with a falsy value are modelled together via
  `Option PyVal` / the `pynone` constructor.
-/

namespace FacturaV

/-- Model of the Python values that flow through the extraction code:
strings, ints, floats, Azure date values (collapsed to their ISO rendering),
Azure currency values (collapsed to their `.amount` float) and Azure address
values (street plus the four components read by the code), and `None`. -/
inductive PyVal where
  | str (s : String)
  | intv (n : Int)
  | floatv (q : ℚ)
  | date (iso : String)
  | currency (amount : ℚ)
  | address (street houseNumber road city postalCode : Option String)
  | pynone
deriving DecidableEq, Repr

/-- Python truthiness of the modelled values: empty string, zero and `None`
are falsy; date / currency / address objects are always truthy. -/
def pyTruthy : PyVal → Bool
  | .str s => s ≠ ""
  | .intv n => n ≠ 0
  | .floatv q => q ≠ 0
  | .date _ => true
  | .currency _ => true
  | .address _ _ _ _ _ => true
  | .pynone => false

/-- Python `==` comparison against the int literal `0` (strings and objects
compare unequal to a number; numbers compare by value). -/
def pyEqZero : PyVal → Bool
  | .intv n => n = 0
  | .floatv q => q = 0
  | _ => false

/-- Python `> 0` on the modelled values.  Comparing a non-numeric value with
`0` raises `TypeError` in Python; the extraction code only reaches these
comparisons with values read from int defaults or currency-typed fields, so
the non-numeric branches (modelled as `false`) are unreachable there. -/
def pyGtZero : PyVal → Bool
  | .intv n => 0 < n
  | .floatv q => 0 < q
  | _ => false

/-- Python `+` with int/float promotion.  Non-numeric operands raise
`TypeError` in Python; unreachable for the fields this code adds (int `0`
defaults and currency amounts), modelled as `pynone`. -/
def pyAdd : PyVal → PyVal → PyVal
  | .intv a, .intv b => .intv (a + b)
  | .intv a, .floatv b => .floatv (a + b)
  | .floatv a, .intv b => .floatv (a + b)
  | .floatv a, .floatv b => .floatv (a + b)
  | _, _ => .pynone

/-- Python `-` with int/float promotion (same caveats as `pyAdd`). -/
def pySub : PyVal → PyVal → PyVal
  | .intv a, .intv b => .intv (a - b)
  | .intv a, .floatv b => .floatv (a - b)
  | .floatv a, .intv b => .floatv (a - b)
  | .floatv a, .floatv b => .floatv (a - b)
  | _, _ => .pynone

/-- Python `*` with int/float promotion (same caveats as `pyAdd`). -/
def pyMul : PyVal → PyVal → PyVal
  | .intv a, .intv b => .intv (a * b)
  | .intv a, .floatv b => .floatv (a * b)
  | .floatv a, .intv b => .floatv (a * b)
  | .floatv a, .floatv b => .floatv (a * b)
  | _, _ => .pynone

/-- Numeric content of a value, for the rate computation
`(tax_amount / subtotal) * 100`; non-numeric operands (unreachable, they
would raise in Python) are mapped to `0`. -/
def pyToQ : PyVal → ℚ
  | .intv n => (n : ℚ)
  | .floatv q => q
  | _ => 0

/-- Decimal digits of the fractional part of `q ∈ [0,1)`, most significant
first, stopping when the remainder is zero (so no trailing zeros).  Fuel
bounds the expansion; every value in scope terminates well within it. -/
def fracDigitsAux : ℚ → Nat → List Nat
  | _, 0 => []
  | q, fuel + 1 =>
    if q = 0 then []
    else
      let d := (q * 10).floor
      d.toNat :: fracDigitsAux (q * 10 - (d : ℚ)) fuel

/-- Model of CPython `repr` for a float holding the exact value `q`: sign,
integer part, `"."`, and the fractional digits (or `"0"` when the value is
integral, matching `repr(21.0) = "21.0"`). -/
def pyFloatRepr (q : ℚ) : String :=
  let sign := if q < 0 then "-" else ""
  let a := |q|
  let ip := a.floor
  let ds := fracDigitsAux (a - (ip : ℚ)) 30
  let fracStr := if ds.isEmpty then "0" else String.join (ds.map (fun d => toString d))
  sign ++ toString ip.toNat ++ "." ++ fracStr

/-- Model of Python `str.replace('%', '')`: drop every `%` character. -/
def pyRemovePercent (s : String) : String :=
  String.mk (s.data.filter (fun c => c ≠ '%'))

/-- Model of Python `str.strip()`: drop leading and trailing whitespace. -/
def pyStrip (s : String) : String :=
  String.mk (((s.data.dropWhile Char.isWhitespace).reverse.dropWhile
    Char.isWhitespace).reverse)

/-- Consume leading decimal digits of a character list, returning their
values and the rest. -/
def takeDigits : List Char → (List Nat × List Char)
  | [] => ([], [])
  | c :: r =>
    if c.isDigit then
      let (ds, rest) := takeDigits r
      ((c.toNat - 48) :: ds, rest)
    else ([], c :: r)

/-- Value of a digit list read as a decimal integer. -/
def natOfDigits (ds : List Nat) : Nat :=
  ds.foldl (fun acc d => 10 * acc + d) 0

/-- The exact decimal value carried by a Python float parsed from a decimal
literal: `(-1)^neg * mant / 10^fracLen`. -/
structure PyDec where
  neg : Bool
  mant : Nat
  fracLen : Nat
deriving DecidableEq, Repr

/-- Strip trailing fractional zeros (`21.50 ↦ 21.5`). -/
def stripZeros : Nat → Nat → Nat × Nat
  | m, 0 => (m, 0)
  | m, fl + 1 => if m % 10 = 0 then stripZeros (m / 10) fl else (m, fl + 1)

/-- Left-pad a digit string with zeros to the given width. -/
def padZeros (s : String) (width : Nat) : String :=
  String.mk (List.replicate (width - s.length) '0') ++ s

/-- Model of CPython `repr` for the float a decimal literal parses to: sign,
integer part, `"."` and the fractional digits with trailing zeros stripped
(`"0"` when the value is integral, matching `repr(21.0) = "21.0"`). -/
def PyDec.render (d : PyDec) : String :=
  let (m, fl) := stripZeros d.mant d.fracLen
  let sign := if d.neg then "-" else ""
  let ip := m / 10 ^ fl
  let fracStr := if fl = 0 then "0" else padZeros (Nat.repr (m % 10 ^ fl)) fl
  sign ++ Nat.repr ip ++ "." ++ fracStr

/-- The rational value of a parsed decimal. -/
def PyDec.toQ (d : PyDec) : ℚ :=
  (if d.neg then -1 else 1) * (d.mant : ℚ) / (10 : ℚ) ^ d.fracLen

/-- Model of Python `float(s)` on the decimal-literal core of its grammar:
optional sign, digits, optional point and fraction digits.  (Exponents,
`inf`/`nan` and digit-group underscores never occur in tax-rate text and
are modelled as parse failures.) -/
def pyParseFloat (s : String) : Option PyDec :=
  let cs := s.data
  let (neg, cs2) : Bool × List Char :=
    match cs with
    | '+' :: r => (false, r)
    | '-' :: r => (true, r)
    | r => (false, r)
  let (ids, rest) := takeDigits cs2
  match rest with
  | [] => if ids.isEmpty then none else some ⟨neg, natOfDigits ids, 0⟩
  | '.' :: r2 =>
    let (fds, rest2) := takeDigits r2
    if ¬ rest2.isEmpty then none
    else if ids.isEmpty ∧ fds.isEmpty then none
    else some ⟨neg, natOfDigits (ids ++ fds), fds.length⟩
  | _ => none

/-- Model of Python `s.split(sep)` for a single-character separator (empty
parts preserved, as in Python). -/
def pySplitChar (sep : Char) (s : String) : List String :=
  go s.data
where
  go : List Char → List String
  | [] => [""]
  | c :: rest =>
    let r := go rest
    if c = sep then "" :: r
    else
      match r with
      | [] => [String.mk [c]]
      | h :: t => String.mk (c :: h.data) :: t

/-- Does the first character list occur at the head of the second? -/
def charsPrefix : List Char → List Char → Bool
  | [], _ => true
  | _ :: _, [] => false
  | a :: as, b :: bs => a = b && charsPrefix as bs

/-- Python's `s.startswith(pre)`. -/
def strStartsWith (s pre : String) : Bool :=
  charsPrefix pre.data s.data

/-- Python's `needle in haystack` substring containment. -/
def strContains (haystack needle : String) : Bool :=
  go needle.data haystack.data
where
  go (nd : List Char) : List Char → Bool
  | [] => charsPrefix nd []
  | c :: cs => charsPrefix nd (c :: cs) || go nd cs

/-- Model of Python `int(s)`: optional surrounding whitespace, optional
sign, at least one digit. -/
def pyParseInt (s : String) : Option Int :=
  let t := pyStrip s
  let (sign, cs) : Int × List Char :=
    match t.data with
    | '+' :: r => (1, r)
    | '-' :: r => (-1, r)
    | r => (1, r)
  let (ds, rest) := takeDigits cs
  if ds.isEmpty ∨ ¬ rest.isEmpty then none
  else some (sign * (natOfDigits ds : Int))

/-- Model of Python `str()` on the modelled values.  The renderings of the
Azure SDK objects (date, currency, address) are abstractions; no covered
code path feeds them to `str()` with an observable result. -/
def pyStr : PyVal → String
  | .str s => s
  | .intv n => toString n
  | .floatv q => pyFloatRepr q
  | .date d => d
  | .currency a => pyFloatRepr a
  | .address _ _ _ _ _ => ""
  | .pynone => "None"

/-- Model of Python `f-string` formatting `f"{x:.1f}"`: round the exact
value to one decimal, ties to even (the rounding CPython's fixed-point
formatting applies). -/
def formatFixed1 (q : ℚ) : String :=
  let t := q * 10
  let fl := t.floor
  let r := t - (fl : ℚ)
  let n : Int :=
    if r < 1/2 then fl
    else if 1/2 < r then fl + 1
    else if fl % 2 = 0 then fl else fl + 1
  let sign := if n < 0 then "-" else ""
  let a := n.natAbs
  sign ++ toString (a / 10) ++ "." ++ toString (a % 10)

/-! Azure document model shared by `image_processor.py` (prebuilt model) and
`custom_processor.py` (custom model).  A document exposes a `fields` dict;
the list-valued fields `TaxDetails` and `Items` have a different shape from
the scalar fields and are carried in their own components (no alias list
ever names them, so the split is observation-equivalent). -/

/-- One entry of a `TaxDetails` list: the sub-dict read via
`tax.value.get(name)`, each sub-field collapsed to its value. -/
structure TaxEntryDoc where
  Rate : Option PyVal
  Amount : Option PyVal
deriving DecidableEq, Repr

/-- One entry of an `Items` list. -/
structure ItemEntryDoc where
  Description : Option PyVal
  Quantity : Option PyVal
  UnitPrice : Option PyVal
  Amount : Option PyVal
deriving DecidableEq, Repr

/-- One analyzed document returned by Azure. -/
structure AzureDocument where
  fields : List (String × PyVal)
  taxDetails : Option (List TaxEntryDoc)
  items : Option (List ItemEntryDoc)
deriving DecidableEq, Repr

/-- The full Azure analysis result (`poller.result()`). -/
structure AzureResult where
  documents : List AzureDocument
deriving DecidableEq, Repr

namespace ImageProcessor

/-- `image_processor.get_field_value`: extract a typed value from one field
with a default.  Dates are formatted `YYYY-MM-DD` (the stored ISO string);
addresses prefer `street_address`, else join the present components with
`", "`, empty join giving the default; currency values yield their float
amount; other values pass through. -/
def get_field_value (field : Option PyVal) (default : PyVal) : PyVal :=
  match field with
  | none => default
  | some v =>
    if ¬ pyTruthy v then default
    else
      match v with
      | .date d => .str d
      | .address street houseNumber road city postalCode =>
        match street with
        | some s =>
          if s ≠ "" then .str s
          else default
        | none =>
          let keep : Option String → List String := fun c =>
            match c with
            | some s => if s ≠ "" then [s] else []
            | none => []
          let parts := keep houseNumber ++ keep road ++ keep city ++ keep postalCode
          if parts.isEmpty then default else .str (String.intercalate ", " parts)
      | .currency a => .floatv a
      | other => other

/-- `image_processor.get_tax_rate_value`: canonicalize a tax-rate value.
Strings are stripped of `%` and whitespace and re-parsed, success giving
`"<float-repr>%"` and failure returning the original string; numbers are
formatted directly; other values go through `str()` first. -/
def get_tax_rate_value (rate_field : Option PyVal) : Option String :=
  match rate_field with
  | none => none
  | some v =>
    if ¬ pyTruthy v then none
    else
      match v with
      | .str s =>
        let cleaned := pyStrip (pyRemovePercent s)
        match pyParseFloat cleaned with
        | some d => some (d.render ++ "%")
        | none => some s
      | .intv n => some (toString n ++ "%")
      | .floatv q => some (pyFloatRepr q ++ "%")
      | other =>
        let rate_str := pyStrip (pyRemovePercent (pyStr other))
        match pyParseFloat rate_str with
        | some d => some (d.render ++ "%")
        | none => some rate_str

/-- Character classes of the CIF/NIF patterns (`[A-Z]` and `[0-9]`). -/
inductive CClass where
  | upper
  | digit
deriving DecidableEq, Repr

/-- Does a character match a class? -/
def cmatch : CClass → Char → Bool
  | .upper, c => 'A' ≤ c ∧ c ≤ 'Z'
  | .digit, c => c.isDigit

/-- Try to match a fixed-shape pattern at the head of a character list,
returning the matched characters. -/
def matchShape : List CClass → List Char → Option (List Char)
  | [], _ => some []
  | _ :: _, [] => none
  | k :: ks, c :: cs =>
    if cmatch k c then (matchShape ks cs).map (fun m => c :: m) else none

/-- Leftmost match of a fixed-shape pattern anywhere in a character list
(model of `re.findall(pattern, text)[0]` for these alternation-free
patterns). -/
def findShape (shape : List CClass) : List Char → Option String
  | [] =>
    match matchShape shape [] with
    | some m => some (String.mk m)
    | none => none
  | c :: cs =>
    match matchShape shape (c :: cs) with
    | some m => some (String.mk m)
    | none => findShape shape cs

/-- The three regional tax-identifier patterns tried in order:
letter+8 digits, 8 digits+letter, letter+7 digits+letter. -/
def cif_patterns : List (List CClass) :=
  [ [.upper] ++ List.replicate 8 .digit
  , List.replicate 8 .digit ++ [.upper]
  , [.upper] ++ List.replicate 7 .digit ++ [.upper] ]

/-- Scan uppercased address text with the CIF/NIF patterns, first pattern
with a match winning. -/
def cif_scan (text : String) : Option String :=
  cif_patterns.findSome? (fun p => findShape p (text.toUpper.data))

/-- `image_processor.extract_field_robust`: first alias whose field is
present with a truthy value wins (via `get_field_value` with default
`None`); failing that, mine the vendor-address street text for
identifier-shaped substrings; failing that, the default. -/
def extract_field_robust (doc : AzureDocument) (field_names : List String)
    (default : PyVal) : PyVal :=
  match field_names.findSome? (fun n =>
      match doc.fields.lookup n with
      | some v => if pyTruthy v then some (get_field_value (some v) .pynone) else none
      | none => none) with
  | some r => r
  | none =>
    match doc.fields.lookup "VendorAddress" with
    | some av =>
      if pyTruthy av then
        match av with
        | .address (some street) _ _ _ _ =>
          if street ≠ "" then
            match cif_scan street with
            | some m => .str m
            | none => default
          else default
        | _ => default
      else default
    | none => default

/-- One emitted tax detail: the `Rate` key is always written with a string,
the `Amount` key with the extracted value. -/
structure PTax where
  Rate : String
  Amount : PyVal
deriving DecidableEq, Repr

/-- One emitted line item. -/
structure PItem where
  Description : PyVal
  Quantity : PyVal
  UnitPrice : PyVal
  Amount : PyVal
deriving DecidableEq, Repr

/-- The invoice dict built by `process_image` for one document (the keys the
covered code reads; list-valued metadata omitted).  The fallback record of
the exception handler writes no `SubTotal`/`TotalTax`/`AmountDue` keys; they
are set to `pynone` there and no covered code path reads them on fallback
records. -/
structure ProcessedInvoice where
  VendorName : PyVal
  VendorTaxId : PyVal
  VendorAddress : PyVal
  InvoiceId : PyVal
  InvoiceDate : PyVal
  InvoiceTotal : PyVal
  DueDate : PyVal
  SubTotal : PyVal
  TotalTax : PyVal
  AmountDue : PyVal
  Items : List PItem
  TaxDetails : List PTax
  procesamiento : String
  confidence_level : String
  error_original : Option String
deriving DecidableEq, Repr

/-- The tax-details extraction loop of `process_image` (lines 256-266): each
entry's rate goes through `get_tax_rate_value`, a falsy result being
replaced by the hard-coded default `'21%'`, while the extracted amount is
kept. -/
def extract_tax_details_img (entries : List TaxEntryDoc) : List PTax :=
  entries.map (fun tax =>
    let rate := get_tax_rate_value tax.Rate
    let amount := get_field_value tax.Amount (.intv 0)
    { Rate :=
        match rate with
        | some r => if r = "" then "21%" else r
        | none => "21%"
      Amount := amount })

/-- The per-document extraction of `process_image` (lines 229-334): robust
alias lookups, total derivation from `SubTotal + TotalTax` when the direct
total is falsy or zero, tax-detail extraction with inference from
`total - subtotal` when none were detected, and item extraction with
back-filled amounts. -/
def processDocument (now : String) (idx : Nat) (doc : AzureDocument) :
    ProcessedInvoice :=
  let vendor_name := extract_field_robust doc
    ["VendorName", "VendorOrganization", "Vendor"] (.str "Empresa No Identificada")
  let vendor_tax_id := extract_field_robust doc
    ["VendorTaxId", "VendorId", "VendorNumber", "TaxId"] (.str "No disponible")
  let invoice_total0 := extract_field_robust doc
    ["InvoiceTotal", "AmountDue", "Total", "GrandTotal", "TotalAmount"] (.intv 0)
  let invoice_total :=
    if ¬ pyTruthy invoice_total0 ∨ pyEqZero invoice_total0 then
      pyAdd (get_field_value (doc.fields.lookup "SubTotal") (.intv 0))
            (get_field_value (doc.fields.lookup "TotalTax") (.intv 0))
    else invoice_total0
  let tax_details :=
    match doc.taxDetails with
    | some entries => if ¬ entries.isEmpty then extract_tax_details_img entries else []
    | none => []
  let tax_details2 :=
    if tax_details.isEmpty ∧ pyGtZero invoice_total then
      let subtotal := get_field_value (doc.fields.lookup "SubTotal") (.intv 0)
      if pyGtZero subtotal then
        let tax_amount := pySub invoice_total subtotal
        if pyGtZero tax_amount then
          let tax_rate := pyToQ tax_amount / pyToQ subtotal * 100
          tax_details ++ [{ Rate := formatFixed1 tax_rate ++ "%", Amount := tax_amount }]
        else tax_details
      else tax_details
    else tax_details
  let items :=
    match doc.items with
    | some l =>
      if ¬ l.isEmpty then
        l.map (fun it =>
          let description := get_field_value it.Description (.str "Sin descripción")
          let quantity := get_field_value it.Quantity (.intv 0)
          let unit_price := get_field_value it.UnitPrice (.intv 0)
          let amount0 := get_field_value it.Amount (.intv 0)
          let amount :=
            if pyEqZero amount0 ∧ ¬ pyEqZero quantity ∧ ¬ pyEqZero unit_price then
              pyMul quantity unit_price
            else amount0
          { Description := description, Quantity := quantity,
            UnitPrice := unit_price, Amount := amount })
      else []
    | none => []
  { VendorName := vendor_name
    VendorTaxId := vendor_tax_id
    VendorAddress := extract_field_robust doc
      ["VendorAddress", "VendorStreet", "VendorLocation"] (.str "No disponible")
    InvoiceId := extract_field_robust doc
      ["InvoiceId", "InvoiceNumber", "DocumentNumber"]
      (.str ("FACT_" ++ now ++ "_" ++ toString idx))
    InvoiceDate := get_field_value (doc.fields.lookup "InvoiceDate") .pynone
    InvoiceTotal := invoice_total
    DueDate := get_field_value (doc.fields.lookup "DueDate") .pynone
    SubTotal := get_field_value (doc.fields.lookup "SubTotal") (.intv 0)
    TotalTax := get_field_value (doc.fields.lookup "TotalTax") (.intv 0)
    AmountDue := get_field_value (doc.fields.lookup "AmountDue") (.intv 0)
    Items := items
    TaxDetails := tax_details2
    procesamiento := "azure_enhanced_plus"
    confidence_level := "enhanced"
    error_original := none }

/-- Membership in the literal list `['No identificado', 'Sin número',
'None', '', 0]` checked by `validate_extracted_data` (Python `in` compares
with `==`: strings against the string literals, numbers against `0`). -/
def value_in_bad_list (v : PyVal) : Bool :=
  match v with
  | .str s => s ∈ ["No identificado", "Sin número", "None", ""]
  | .intv n => n = 0
  | .floatv q => q = 0
  | _ => false

/-- `image_processor.validate_extracted_data`: `None`/empty input is
invalid; otherwise count how many of the three key fields hold a truthy
value passing the `value and value not in [...]` check, valid iff at
least 2. -/
def validate_extracted_data (invoice_data : Option ProcessedInvoice) : Bool :=
  match invoice_data with
  | none => false
  | some d =>
    let valid_fields := [d.VendorName, d.InvoiceId, d.InvoiceTotal].countP
      (fun v => pyTruthy v && ! value_in_bad_list v)
    2 ≤ valid_fields

/-- The document loop of `process_image` (lines 226-344): every record is
appended whether it validates or not — the source logs a different message
per branch but appends `invoice_data` unchanged in both. -/
def processDocsLoop (now : String) (idx : Nat) :
    List AzureDocument → List ProcessedInvoice
  | [] => []
  | d :: rest =>
    let r := processDocument now idx d
    (if validate_extracted_data (some r) then [r] else [r]) ++
      processDocsLoop now (idx + 1) rest

/-- The fallback record of `process_image`'s exception handler
(lines 352-366). -/
def fallback_record (filename error_msg now : String) : ProcessedInvoice :=
  { VendorName := .str ("Empresa_Desde_" ++ filename)
    InvoiceId := .str ("FALLBACK_" ++ now)
    InvoiceTotal := .intv 0
    VendorTaxId := .str "No disponible"
    VendorAddress := .str "No disponible"
    InvoiceDate := .pynone
    DueDate := .pynone
    SubTotal := .pynone
    TotalTax := .pynone
    AmountDue := .pynone
    Items := []
    TaxDetails := []
    procesamiento := "fallback_basico"
    confidence_level := "low"
    error_original := some error_msg }

/-- `image_processor.process_image`: the OCR call's outcome is passed in as
`Except` (error text on a raised exception); an error yields the single
fallback record, success processes each returned document. -/
def process_image (now filename : String)
    (ocr : Except String (List AzureDocument)) : List ProcessedInvoice :=
  match ocr with
  | .error e => [fallback_record filename e now]
  | .ok docs => processDocsLoop now 0 docs

end ImageProcessor

namespace CustomProcessor

/-- The simplified invoice dict built by
`CustomModelProcessor._extract_simplified_fields` (the keys the covered code
reads; `document_index` and the timestamp string are carried as written). -/
structure CustomInvoice where
  VendorName : PyVal
  VendorTaxId : PyVal
  VendorAddress : PyVal
  InvoiceId : PyVal
  InvoiceDate : PyVal
  InvoiceTotal : PyVal
  TaxDetails : List (PyVal × PyVal)
  archivo_origen : String
  procesamiento : String
  confidence_level : String
  document_index : Nat
  error : Option String
deriving DecidableEq, Repr

/-- `CustomModelProcessor._get_field_value`: present field with a truthy
value wins, else the default. -/
def get_field_value_custom (doc : AzureDocument) (field_name : String)
    (default : PyVal) : PyVal :=
  match doc.fields.lookup field_name with
  | some v => if pyTruthy v then v else default
  | none => default

/-- `CustomModelProcessor._get_nested_value`: a present sub-field's value is
returned as-is (no truthiness check on the inner value), else the default. -/
def get_nested_value (entry : Option PyVal) (default : PyVal) : PyVal :=
  match entry with
  | some v => v
  | none => default

/-- `CustomModelProcessor._extract_tax_details`: each entry keeps its raw
`Rate` (default the string `'0%'`) and `Amount` (default `0`). -/
def extract_tax_details_custom (doc : AzureDocument) : List (PyVal × PyVal) :=
  match doc.taxDetails with
  | some entries =>
    entries.map (fun tax =>
      (get_nested_value tax.Rate (.str "0%"), get_nested_value tax.Amount (.intv 0)))
  | none => []

/-- `CustomModelProcessor._extract_simplified_fields`: an empty
`document.documents` list yields the empty list; otherwise one record per
document. -/
def extract_simplified_fields (document : AzureResult) (filename : String)
    (now : String) : List CustomInvoice :=
  if document.documents.isEmpty then []
  else
    document.documents.enum.map (fun p =>
      let doc_idx := p.1
      let doc := p.2
      { VendorName := get_field_value_custom doc "VendorName" (.str "Empresa No Identificada")
        VendorTaxId := get_field_value_custom doc "VendorTaxId" (.str "No disponible")
        VendorAddress := get_field_value_custom doc "VendorAddress" (.str "No disponible")
        InvoiceId := get_field_value_custom doc "InvoiceId" (.str ("FACT_" ++ now))
        InvoiceDate := get_field_value_custom doc "InvoiceDate" .pynone
        InvoiceTotal := get_field_value_custom doc "InvoiceTotal" (.intv 0)
        TaxDetails := extract_tax_details_custom doc
        archivo_origen := filename
        procesamiento := "custom_model"
        confidence_level := "high"
        document_index := doc_idx + 1
        error := none })

/-- `CustomModelProcessor._create_fallback_data`: the single low-tier record
emitted when processing raised.  (The source dict carries no
`document_index` key; it is modelled as `0` and no covered code reads it on
fallback records.) -/
def create_fallback_data (filename error_msg now : String) : List CustomInvoice :=
  [{ VendorName := .str ("Error_Procesamiento_" ++ filename)
     VendorTaxId := .str "No disponible"
     VendorAddress := .str "No disponible"
     InvoiceId := .str ("ERROR_" ++ now)
     InvoiceDate := .pynone
     InvoiceTotal := .intv 0
     TaxDetails := []
     archivo_origen := filename
     procesamiento := "fallback"
     confidence_level := "low"
     document_index := 0
     error := some error_msg }]

/-- `CustomModelProcessor.process_document`: the Azure call's outcome is
passed in as `Except`; any raised exception is caught and turned into the
fallback record, success goes through `_extract_simplified_fields`. -/
def process_document (filename now : String) (ocr : Except String AzureResult) :
    List CustomInvoice :=
  match ocr with
  | .error e => create_fallback_data filename e now
  | .ok result => extract_simplified_fields result filename now

end CustomProcessor

/-! Aggregation layer (`excel_generator_simple.py` and `excel_generator.py`).
Its inputs are the extraction records; the aggregation code reads only
`VendorName`, `InvoiceTotal`, `TaxDetails` and `archivo_origen`, with the
types the extractors put there (string vendor names, numeric totals, tax
details with a rate string and a numeric amount), so the records are
embedded at those types. -/

/-- One tax detail as consumed by aggregation. -/
structure STax where
  Rate : String
  Amount : ℚ
deriving DecidableEq, Repr

/-- The slice of an extraction record that aggregation reads, plus the
metadata fields the batch loop writes. -/
structure SimpleRec where
  VendorName : String
  InvoiceTotal : ℚ
  TaxDetails : List STax
  archivo_origen : String
  procesamiento : String
  confidence_level : String
deriving DecidableEq, Repr

/-- Append `a` under key `k` of an insertion-ordered association list,
creating the key at the end when absent (the Python
`if k not in d: d[k] = []` / `d[k].append(a)` idiom; dicts preserve
insertion order). -/
def addToGroup {A : Type} (gs : List (String × List A)) (k : String) (a : A) :
    List (String × List A) :=
  match gs with
  | [] => [(k, [a])]
  | (k2, l) :: rest =>
    if k2 = k then (k2, l ++ [a]) :: rest else (k2, l) :: addToGroup rest k a

/-- Add `importe` to the running total of `tipo` in an insertion-ordered
rate → amount association list (the `if tipo not in resumen: resumen[tipo] =
0` / `resumen[tipo] += importe` idiom). -/
def add_iva (resumen : List (String × ℚ)) (tipo : String) (importe : ℚ) :
    List (String × ℚ) :=
  match resumen with
  | [] => [(tipo, importe)]
  | (k, v) :: rest =>
    if k = tipo then (k, v + importe) :: rest else (k, v) :: add_iva rest tipo importe

namespace ExcelSimple

/-- `excel_generator_simple.calcular_resumen_iva_completo`: fold every member
invoice's tax details into a rate → total-amount map, rates matched by exact
string equality. -/
def calcular_resumen_iva_completo (facturas_empresa : List SimpleRec) :
    List (String × ℚ) :=
  facturas_empresa.foldl
    (fun resumen factura =>
      factura.TaxDetails.foldl
        (fun resumen2 tax => add_iva resumen2 tax.Rate tax.Amount) resumen)
    []

/-- The company-grouping key of `generate_simplified_excel` (lines 26-34):
an empty or `'None'` vendor name maps every such record to the one shared
literal `"Empresa No Identificada"`. -/
def empresa_key_simple (vendorName : String) : String :=
  if vendorName = "" ∨ vendorName = "None" then "Empresa No Identificada"
  else vendorName

/-- The grouping loop of `generate_simplified_excel` (lines 23-34):
insertion-ordered buckets keyed by `empresa_key_simple`. -/
def group_empresas_simple (processed_data_list : List SimpleRec) :
    List (String × List SimpleRec) :=
  processed_data_list.foldl
    (fun empresas data => addToGroup empresas (empresa_key_simple data.VendorName) data)
    []

/-- The per-company summary entry built by `generate_simplified_excel`
(lines 41-58).  The `.xlsx` byte rendering is out of scope; the wrapped
`generar_excel_empresa_simplificado` call is modelled as succeeding, which
it does whenever no library exception occurs. -/
structure EmpresaPayload where
  empresa : String
  cantidad_facturas : Nat
  total_importe : ℚ
  resumen_iva : List (String × ℚ)
deriving DecidableEq, Repr

/-- `excel_generator_simple.generate_simplified_excel` at the payload level:
empty input yields no files; otherwise one payload per company bucket. -/
def generate_simplified_excel (processed_data_list : List SimpleRec) :
    List EmpresaPayload :=
  if processed_data_list.isEmpty then []
  else
    (group_empresas_simple processed_data_list).map (fun p =>
      { empresa := p.1
        cantidad_facturas := p.2.length
        total_importe := (p.2.map SimpleRec.InvoiceTotal).sum
        resumen_iva := calcular_resumen_iva_completo p.2 })

end ExcelSimple

namespace ExcelLegacy

/-- `excel_generator.calcular_resumen_iva_empresa`: identical fold to the
simplified generator's summary. -/
def calcular_resumen_iva_empresa (facturas_empresa : List SimpleRec) :
    List (String × ℚ) :=
  facturas_empresa.foldl
    (fun resumen factura =>
      factura.TaxDetails.foldl
        (fun resumen2 tax => add_iva resumen2 tax.Rate tax.Amount) resumen)
    []

/-- Zero-padded 4-digit rendering of `n < 10000` (Python `f"{n:04d}"`). -/
def digitChar (d : Nat) : Char :=
  match d with
  | 0 => '0' | 1 => '1' | 2 => '2' | 3 => '3' | 4 => '4'
  | 5 => '5' | 6 => '6' | 7 => '7' | 8 => '8' | _ => '9'

/-- Four-digit zero-padded decimal string of `n % 10000`. -/
def pad4 (n : Nat) : String :=
  String.mk [digitChar (n / 1000 % 10), digitChar (n / 100 % 10),
             digitChar (n / 10 % 10), digitChar (n % 10)]

/-- The company-grouping key of `generate_excel` (lines 30-46), parameterized
by Python's runtime-seeded string `hash`: a falsy vendor name gets the
synthetic key `"Empresa_No_Identificada_" + f"{hash(archivo_origen) % 10000:04d}"`
(Python `%` on a positive modulus is `Int.emod`). -/
def empresa_key_legacy (pyHash : String → Int) (vendorName archivo_origen : String) :
    String :=
  if vendorName = "" then
    "Empresa_No_Identificada_" ++ pad4 ((pyHash archivo_origen % 10000).toNat)
  else vendorName

/-- The grouping loop of `generate_excel` (lines 27-46). -/
def group_empresas_legacy (pyHash : String → Int)
    (processed_data_list : List SimpleRec) : List (String × List SimpleRec) :=
  processed_data_list.foldl
    (fun empresas data =>
      addToGroup empresas (empresa_key_legacy pyHash data.VendorName data.archivo_origen) data)
    []

end ExcelLegacy

namespace Main

/-- The classification outcome of the multipage-detection loop in
`upload_invoices` (main.py lines 459-509): per-group page lists
`(filename, page_number)` in insertion order, and the single files in
order. -/
structure ClassifyResult where
  groups : List (String × List (String × Int))
  singles : List String
deriving DecidableEq, Repr

/-- The multipage-detection loop of `upload_invoices` (lines 464-509),
applied to the uploaded filenames: metadata entries are consumed
separately; a file groups only when its name starts with `"multipage_"`,
contains `"_page_"`, and splits on `'_'` into at least 4 parts, the group id
being part 1 and the page number the integer before the first `'.'` of part
3 (an unparsable number raises `ValueError` through the endpoint, modelled
as `Except.error`); everything else is a single file. -/
def classify_files (filenames : List String) : Except String ClassifyResult :=
  go filenames { groups := [], singles := [] }
where
  go : List String → ClassifyResult → Except String ClassifyResult
  | [], st => .ok st
  | filename :: rest, st =>
    if filename = "multipage_metadata" then go rest st
    else if strStartsWith filename "multipage_" && strContains filename "_page_" then
      let parts := pySplitChar '_' filename
      if 4 ≤ parts.length then
        let group_id := parts.getD 1 ""
        let page_str := (pySplitChar '.' (parts.getD 3 "")).getD 0 ""
        match pyParseInt page_str with
        | some page_num =>
          go rest { st with groups := addToGroup st.groups group_id (filename, page_num) }
        | none => .error "ValueError"
      else go rest { st with singles := st.singles ++ [filename] }
    else go rest { st with singles := st.singles ++ [filename] }

/-- Insert a page after every page with a smaller-or-equal page number
(keeping insertion order among equal keys, as Python's stable `list.sort`
does). -/
def insortPage (p : String × Int) : List (String × Int) → List (String × Int)
  | [] => [p]
  | q :: r => if q.2 ≤ p.2 then q :: insortPage p r else p :: q :: r

/-- `pages.sort(key=lambda x: x['page_number'])` (main.py line 519): stable
ascending sort by the captured page number. -/
def sort_group_pages (pages : List (String × Int)) : List (String × Int) :=
  pages.foldl (fun acc p => insortPage p acc) []

/-- Classification followed by the per-group page ordering applied before
PDF assembly (lines 516-519). -/
def classify_and_sort (filenames : List String) : Except String ClassifyResult :=
  (classify_files filenames).map (fun st =>
    { st with groups := st.groups.map (fun g => (g.1, sort_group_pages g.2)) })

/-- State of the Azure processing loop of `upload_invoices`
(lines 679-754): the accumulated batch results, the loop variable
`processed_data` (which survives iterations), and the counters. -/
structure BatchState where
  all_processed_data : List SimpleRec
  processed_data : List SimpleRec
  processed_count : Nat
  failed_count : Nat
deriving DecidableEq, Repr

/-- The Azure processing loop of `upload_invoices` (lines 687-754): each
file's extraction outcome (as returned by `process_document`, which never
raises) is annotated with its originating file name and appended to
`all_processed_data` when non-empty, else counted as failed.  Annotation
mutates the same dicts the loop variable `processed_data` holds, so both
views see it. -/
def upload_loop : List (String × List SimpleRec) → BatchState → BatchState
  | [], st => st
  | (original_name, result) :: rest, st =>
    if ¬ result.isEmpty then
      let annotated := result.map (fun d => { d with archivo_origen := original_name })
      upload_loop rest
        { all_processed_data := st.all_processed_data ++ annotated
          processed_data := annotated
          processed_count := st.processed_count + 1
          failed_count := st.failed_count }
    else
      upload_loop rest { st with processed_data := result
                                 failed_count := st.failed_count + 1 }

/-- `upload_invoices` from the processing loop to the Excel generation call
(main.py line 758): the batch results are accumulated in
`all_processed_data`, but `generate_simplified_excel` is called on the loop
variable `processed_data` — the last file's records.  Returns the
accumulated batch list alongside the generated per-company payloads. -/
def upload_invoices_excel (files : List (String × List SimpleRec)) :
    List SimpleRec × List ExcelSimple.EmpresaPayload :=
  let st := upload_loop files
    { all_processed_data := [], processed_data := [],
      processed_count := 0, failed_count := 0 }
  (st.all_processed_data, ExcelSimple.generate_simplified_excel st.processed_data)

end Main

/-! Spec-side comparator definitions.  These follow the specification's
wording (not the source) and exist to be compared against the source-derived
definitions above. -/

/-- The three literal display placeholders the validator's own list names
(`'No identificado'`, `'Sin número'`, `'None'` — the defaults the Excel
layer renders for missing values). -/
def isValidatorLiteral : PyVal → Bool
  | .str s => s = "No identificado" ∨ s = "Sin número" ∨ s = "None"
  | _ => false

/-- Spec wording: a "placeholder literal" — a literal string the pipeline
writes into a key field it could not resolve (spec §3: `vendorName`
"defaults to a placeholder literal when unresolved", `invoiceId` is
"defaulted to a generated `FACT_<timestamp>` literal"; glossary: "a literal
string or zero used when a field cannot be resolved").  Concretely, for the
three key fields these are the vendor-name defaults
`'Empresa No Identificada'`, `'Empresa_Desde_<file>'` and
`'Error_Procesamiento_<file>'`, the generated ids `FACT_*`, `FALLBACK_*`
and `ERROR_*`, the `'No disponible'` default, and the display placeholders
the validator's own list names. -/
def isPlaceholderLiteral : PyVal → Bool
  | .str s =>
    s = "Empresa No Identificada" || strStartsWith s "FACT_" ||
    strStartsWith s "FALLBACK_" || strStartsWith s "ERROR_" ||
    strStartsWith s "Empresa_Desde_" || strStartsWith s "Error_Procesamiento_" ||
    s = "No disponible" || s = "No identificado" || s = "Sin número" || s = "None"
  | _ => false

/-- Spec wording: an "empty" value (the empty string, or a null value —
which is as absent as a field gets). -/
def isEmptyValue : PyVal → Bool
  | .str s => s = ""
  | .pynone => true
  | _ => false

/-- Spec wording: a "zero" value. -/
def isZeroValue : PyVal → Bool
  | .intv n => n = 0
  | .floatv q => q = 0
  | _ => false

/-- Spec wording for C5: a key field is "real" when it is not a placeholder
literal, not empty and not zero. -/
def specRealField (v : PyVal) : Bool :=
  ¬ isPlaceholderLiteral v && ¬ isEmptyValue v && ¬ isZeroValue v

/-- Number of "real" fields among {vendorName, invoiceId, invoiceTotal} of a
record, per the spec's wording. -/
def specRealCount (d : ImageProcessor.ProcessedInvoice) : Nat :=
  [d.VendorName, d.InvoiceId, d.InvoiceTotal].countP specRealField

/-- The check the validator actually performs on a field: truthy and outside
its hard-coded literal list — restated through the three separate
not-validator-literal / not-empty / not-zero predicates, to be compared
with the source definition. -/
def litRealField (v : PyVal) : Bool :=
  ¬ isValidatorLiteral v && ¬ isEmptyValue v && ¬ isZeroValue v

/-- Number of fields among {vendorName, invoiceId, invoiceTotal} passing
the validator's literal-list check. -/
def litRealCount (d : ImageProcessor.ProcessedInvoice) : Nat :=
  [d.VendorName, d.InvoiceId, d.InvoiceTotal].countP litRealField

/-- Spec wording for C6: the per-document records, one per input document in
order, nothing dropped. -/
def spec_retain_all (now : String) (idx : Nat) :
    List AzureDocument → List ImageProcessor.ProcessedInvoice
  | [] => []
  | d :: rest =>
    ImageProcessor.processDocument now idx d :: spec_retain_all now (idx + 1) rest

/-! Helper lemmas. -/

/-- The validator's per-field check agrees with the literal-list "real
field" predicate on every value. -/
theorem real_field_eq (v : PyVal) :
    (pyTruthy v && ! ImageProcessor.value_in_bad_list v) = litRealField v := by
  cases v with
  | str s =>
    by_cases h0 : s = "" <;> by_cases h1 : s = "No identificado" <;>
      by_cases h2 : s = "Sin número" <;> by_cases h3 : s = "None" <;>
      simp [pyTruthy, ImageProcessor.value_in_bad_list, litRealField,
        isValidatorLiteral, isEmptyValue, isZeroValue, h0, h1, h2, h3]
  | intv n =>
    by_cases h : n = 0 <;>
      simp [pyTruthy, ImageProcessor.value_in_bad_list, litRealField,
        isValidatorLiteral, isEmptyValue, isZeroValue, h]
  | floatv q =>
    by_cases h : q = 0 <;>
      simp [pyTruthy, ImageProcessor.value_in_bad_list, litRealField,
        isValidatorLiteral, isEmptyValue, isZeroValue, h]
  | date d =>
    simp [pyTruthy, ImageProcessor.value_in_bad_list, litRealField,
      isValidatorLiteral, isEmptyValue, isZeroValue]
  | currency a =>
    simp [pyTruthy, ImageProcessor.value_in_bad_list, litRealField,
      isValidatorLiteral, isEmptyValue, isZeroValue]
  | address s h r c p =>
    simp [pyTruthy, ImageProcessor.value_in_bad_list, litRealField,
      isValidatorLiteral, isEmptyValue, isZeroValue]
  | pynone =>
    simp [pyTruthy, ImageProcessor.value_in_bad_list, litRealField,
      isValidatorLiteral, isEmptyValue, isZeroValue]

/-- Adding an amount under a rate key increases the map's value total by
exactly that amount. -/
theorem add_iva_snd_sum (m : List (String × ℚ)) (r : String) (a : ℚ) :
    ((add_iva m r a).map Prod.snd).sum = (m.map Prod.snd).sum + a := by
  induction m with
  | nil => simp [add_iva]
  | cons kv rest ih =>
    obtain ⟨k, v⟩ := kv
    by_cases h : k = r <;> simp [add_iva, h, ih] <;> ring

/-- Folding one invoice's tax details into the map adds exactly their
amount total. -/
theorem taxfold_snd_sum (ts : List STax) :
    ∀ m : List (String × ℚ),
      ((ts.foldl (fun m2 t => add_iva m2 t.Rate t.Amount) m).map Prod.snd).sum =
        (m.map Prod.snd).sum + (ts.map STax.Amount).sum := by
  induction ts with
  | nil => simp
  | cons t ts ih =>
    intro m
    rw [List.foldl_cons, ih, add_iva_snd_sum]
    simp [add_assoc]

/-- Folding a list of invoices into the map adds exactly the sum of all
their tax-detail amounts. -/
theorem resumen_fold_sum (fs : List SimpleRec) :
    ∀ m : List (String × ℚ),
      ((fs.foldl
          (fun resumen factura =>
            factura.TaxDetails.foldl
              (fun resumen2 tax => add_iva resumen2 tax.Rate tax.Amount) resumen)
          m).map Prod.snd).sum =
        (m.map Prod.snd).sum + (fs.map (fun f => (f.TaxDetails.map STax.Amount).sum)).sum := by
  induction fs with
  | nil => simp
  | cons f fs ih =>
    intro m
    rw [List.foldl_cons, ih, taxfold_snd_sum]
    simp [add_assoc]

/-- Membership in an insertion is membership in the inserted element or the
original list. -/
theorem mem_insortPage (p q : String × Int) :
    ∀ l : List (String × Int), q ∈ Main.insortPage p l ↔ q = p ∨ q ∈ l := by
  intro l
  induction l with
  | nil => simp [Main.insortPage]
  | cons x r ih =>
    by_cases h : x.2 ≤ p.2
    · simp [Main.insortPage, h, ih]
      tauto
    · simp [Main.insortPage, h]

/-- Inserting into a page list sorted by page number keeps it sorted. -/
theorem sorted_insortPage (p : String × Int) :
    ∀ l : List (String × Int),
      List.Sorted (fun a b : String × Int => a.2 ≤ b.2) l →
        List.Sorted (fun a b : String × Int => a.2 ≤ b.2) (Main.insortPage p l) := by
  intro l
  induction l with
  | nil => intro _; simp [Main.insortPage]
  | cons q r ih =>
    intro h
    rw [List.sorted_cons] at h
    by_cases hq : q.2 ≤ p.2
    · rw [Main.insortPage, if_pos hq, List.sorted_cons]
      refine ⟨?_, ih h.2⟩
      intro b hb
      rcases (mem_insortPage p b r).1 hb with rfl | hbr
      · exact hq
      · exact h.1 b hbr
    · rw [Main.insortPage, if_neg hq, List.sorted_cons]
      refine ⟨?_, List.sorted_cons.2 h⟩
      intro b hb
      rcases List.mem_cons.1 hb with rfl | hbr
      · omega
      · have := h.1 b hbr
        omega

/-- The stable page sort always produces a list sorted ascending by page
number. -/
theorem sorted_sort_group_pages (pages : List (String × Int)) :
    List.Sorted (fun a b : String × Int => a.2 ≤ b.2) (Main.sort_group_pages pages) := by
  suffices h : ∀ acc : List (String × Int),
      List.Sorted (fun a b : String × Int => a.2 ≤ b.2) acc →
        List.Sorted (fun a b : String × Int => a.2 ≤ b.2)
          (pages.foldl (fun acc p => Main.insortPage p acc) acc) by
    exact h [] (by simp)
  induction pages with
  | nil => intro acc hacc; simpa
  | cons p ps ih =>
    intro acc hacc
    exact ih (Main.insortPage p acc) (sorted_insortPage p acc hacc)

/-- The digit characters are distinct for distinct digits. -/
theorem digitChar_inj (a b : Nat) (ha : a < 10) (hb : b < 10)
    (h : ExcelLegacy.digitChar a = ExcelLegacy.digitChar b) : a = b := by
  interval_cases a <;> interval_cases b <;> simp_all [ExcelLegacy.digitChar]

/-- Four-digit zero-padding is injective below 10000. -/
theorem pad4_inj (a b : Nat) (ha : a < 10000) (hb : b < 10000)
    (h : ExcelLegacy.pad4 a = ExcelLegacy.pad4 b) : a = b := by
  rw [ExcelLegacy.pad4, ExcelLegacy.pad4] at h
  injection h with hd
  have h1 := digitChar_inj (a / 1000 % 10) (b / 1000 % 10)
    (Nat.mod_lt _ (by norm_num)) (Nat.mod_lt _ (by norm_num))
  have h2 := digitChar_inj (a / 100 % 10) (b / 100 % 10)
    (Nat.mod_lt _ (by norm_num)) (Nat.mod_lt _ (by norm_num))
  have h3 := digitChar_inj (a / 10 % 10) (b / 10 % 10)
    (Nat.mod_lt _ (by norm_num)) (Nat.mod_lt _ (by norm_num))
  have h4 := digitChar_inj (a % 10) (b % 10)
    (Nat.mod_lt _ (by norm_num)) (Nat.mod_lt _ (by norm_num))
  simp only [List.cons.injEq, and_true] at hd
  obtain ⟨e1, e2, e3, e4⟩ := hd
  have := h1 e1
  have := h2 e2
  have := h3 e3
  have := h4 e4
  omega

/-- The document loop of `process_image` equals the spec-side map that keeps
every record: the validation check appends the record in both branches. -/
theorem processDocsLoop_eq_retain (now : String) :
    ∀ (docs : List AzureDocument) (idx : Nat),
      ImageProcessor.processDocsLoop now idx docs = spec_retain_all now idx docs := by
  intro docs
  induction docs with
  | nil => intro idx; rfl
  | cons d rest ih =>
    intro idx
    simp [ImageProcessor.processDocsLoop, spec_retain_all, ih]

/-- Every record the document loop emits carries the `'enhanced'` confidence
tag the extraction wrote — the validation outcome never changes it. -/
theorem processDocsLoop_confidence (now : String) :
    ∀ (docs : List AzureDocument) (idx : Nat)
      (r : ImageProcessor.ProcessedInvoice),
      r ∈ ImageProcessor.processDocsLoop now idx docs →
        r.confidence_level = "enhanced" := by
  intro docs
  induction docs with
  | nil => intro idx r hr; simp [ImageProcessor.processDocsLoop] at hr
  | cons d rest ih =>
    intro idx r hr
    simp only [ImageProcessor.processDocsLoop, ite_self, List.singleton_append,
      List.mem_cons] at hr
    rcases hr with rfl | hr
    · rfl
    · exact ih (idx + 1) r hr

/-- A synthetic unidentified-vendor key determines the 4-digit hash residue
it was built from. -/
theorem synth_key_inj (m n : Nat) (hm : m < 10000) (hn : n < 10000)
    (h : "Empresa_No_Identificada_" ++ ExcelLegacy.pad4 m =
         "Empresa_No_Identificada_" ++ ExcelLegacy.pad4 n) : m = n := by
  have hd := congrArg String.data h
  have hredl : ∀ a b : String, (a ++ b).data = a.data ++ b.data := fun a b => rfl
  rw [hredl, hredl] at hd
  have hdata := List.append_cancel_left hd
  exact pad4_inj m n hm hn (congrArg String.mk hdata)

/-! Claim theorems: concrete inputs. -/

/-- C1 concrete batch, file 1: one invoice for vendor `Acme`. -/
def c1invA : SimpleRec :=
  { VendorName := "Acme", InvoiceTotal := 100,
    TaxDetails := [{ Rate := "21.0%", Amount := 21 }],
    archivo_origen := "", procesamiento := "custom_model",
    confidence_level := "high" }

/-- C1 concrete batch, file 2: one invoice for vendor `Beta`. -/
def c1invB : SimpleRec :=
  { VendorName := "Beta", InvoiceTotal := 200, TaxDetails := [],
    archivo_origen := "", procesamiento := "custom_model",
    confidence_level := "high" }

/-- C3/C6 concrete documents. -/
def c3doc : AzureDocument :=
  { fields := [("SubTotal", .currency 100), ("TotalTax", .currency 21)],
    taxDetails := none, items := none }

/-- A document whose three key fields all resolve to validator-rejected
values. -/
def c6doc : AzureDocument :=
  { fields := [("VendorName", .str "No identificado"),
               ("InvoiceId", .str "Sin número")],
    taxDetails := none, items := none }

/-- C8 concrete records: empty vendor names, distinct source files. -/
def c8rec1 : SimpleRec :=
  { VendorName := "", InvoiceTotal := 100, TaxDetails := [],
    archivo_origen := "a.jpg", procesamiento := "custom_model",
    confidence_level := "high" }

/-- Second C8 record, from a different source file. -/
def c8rec2 : SimpleRec :=
  { VendorName := "", InvoiceTotal := 200, TaxDetails := [],
    archivo_origen := "b.jpg", procesamiento := "custom_model",
    confidence_level := "high" }

/-! Claim theorems. -/

/-- C1: on a batch of two files, each contributing one extracted invoice,
the batch accumulator holds both records but the generated per-company
Excel payload covers only the second file's record (`generate_simplified_excel`
is called on the loop variable `processed_data`, main.py line 758, not on
`all_processed_data`): the emitted report aggregates a strict subset of the
batch. -/
theorem C1_report_covers_strict_subset :
    (Main.upload_invoices_excel [("f1.pdf", [c1invA]), ("f2.pdf", [c1invB])]).1.length = 2 ∧
    ((Main.upload_invoices_excel [("f1.pdf", [c1invA]), ("f2.pdf", [c1invB])]).2.map
        ExcelSimple.EmpresaPayload.empresa) = ["Beta"] ∧
    ((Main.upload_invoices_excel [("f1.pdf", [c1invA]), ("f2.pdf", [c1invB])]).2.map
        ExcelSimple.EmpresaPayload.cantidad_facturas).sum = 1 := by
  decide

/-- C2 counterexample: when the OCR returns no documents, extraction
returns the empty list — not a fully-defaulted low-tier record. -/
theorem C2_counterexample :
    CustomProcessor.process_document "factura.pdf" "120000" (.ok { documents := [] }) =
      [] := rfl

/-- C2 (amended): extraction never raises; a raised OCR error yields exactly
one `low`-tier record populated with placeholder defaults and carrying the
error text (in both processors), while an empty OCR document list yields the
empty list. -/
theorem C2_error_and_empty_behavior (fn now e : String) :
    CustomProcessor.process_document fn now (.error e) =
      [{ VendorName := .str ("Error_Procesamiento_" ++ fn)
         VendorTaxId := .str "No disponible"
         VendorAddress := .str "No disponible"
         InvoiceId := .str ("ERROR_" ++ now)
         InvoiceDate := .pynone
         InvoiceTotal := .intv 0
         TaxDetails := []
         archivo_origen := fn
         procesamiento := "fallback"
         confidence_level := "low"
         document_index := 0
         error := some e }] ∧
    ImageProcessor.process_image now fn (.error e) =
      [ImageProcessor.fallback_record fn e now] ∧
    (ImageProcessor.fallback_record fn e now).confidence_level = "low" ∧
    (ImageProcessor.fallback_record fn e now).error_original = some e ∧
    CustomProcessor.process_document fn now (.ok { documents := [] }) = [] :=
  ⟨rfl, rfl, rfl, rfl, rfl⟩

/-- Evaluation of the C3 scenario document through the per-document
extraction: the derived total and the single inferred tax detail. -/
theorem c3doc_eval :
    (ImageProcessor.processDocument "120000" 0 c3doc).InvoiceTotal = .floatv 121 ∧
    (ImageProcessor.processDocument "120000" 0 c3doc).TaxDetails =
      [{ Rate := "21.0%", Amount := .floatv 21 }] := by
  have hadd : pyAdd (PyVal.floatv 100) (PyVal.floatv 21) = PyVal.floatv 121 := by
    simp only [pyAdd]; norm_num
  have hsub : pySub (PyVal.floatv 121) (PyVal.floatv 100) = PyVal.floatv 21 := by
    simp only [pySub]; norm_num
  have hgt : pyGtZero (PyVal.floatv 121) = true := by
    simp only [pyGtZero]; norm_num
  have hgt100 : pyGtZero (PyVal.floatv 100) = true := by
    simp only [pyGtZero]; norm_num
  have hgt21 : pyGtZero (PyVal.floatv 21) = true := by
    simp only [pyGtZero]; norm_num
  have hdiv : pyToQ (PyVal.floatv 21) / pyToQ (PyVal.floatv 100) * 100 = (21 : ℚ) := by
    simp only [pyToQ]; norm_num
  have hfmt : formatFixed1 (21 : ℚ) = "21.0" := by
    have hf : Rat.floor (210 : ℚ) = 210 := by rw [Rat.floor_def']; norm_num
    norm_num [formatFixed1, hf]
    rfl
  constructor <;>
    simp only [ImageProcessor.processDocument, c3doc,
      ImageProcessor.extract_field_robust, ImageProcessor.get_field_value,
      ImageProcessor.extract_tax_details_img, List.lookup, List.findSome?,
      String.reduceBEq, String.reduceEq, pyTruthy, pyEqZero,
      hadd, hsub, hgt, hgt100, hgt21, hdiv, hfmt] <;>
    simp [hadd, hsub, hgt, hgt100, hgt21, hdiv, hfmt]

/-- C3 counterexample: with `InvoiceTotal` absent, `SubTotal = 100`,
`TotalTax = 21`, the single inferred tax detail's rate string is
`"21.0%"` (formatted with one decimal), not the claimed `"21%"`. -/
theorem C3_counterexample :
    (ImageProcessor.processDocument "120000" 0 c3doc).TaxDetails.map
        ImageProcessor.PTax.Rate = ["21.0%"] ∧
    ¬ (ImageProcessor.processDocument "120000" 0 c3doc).TaxDetails.map
        ImageProcessor.PTax.Rate = ["21%"] := by
  rw [c3doc_eval.2]
  constructor
  · rfl
  · decide

/-- C3 (amended): with `InvoiceTotal` absent, `SubTotal = 100` and
`TotalTax = 21`, extraction returns `invoiceTotal = 121` and exactly one
inferred tax detail with rate string `"21.0%"` and amount `21`. -/
theorem C3_scenario :
    (ImageProcessor.processDocument "120000" 0 c3doc).InvoiceTotal = .floatv 121 ∧
    (ImageProcessor.processDocument "120000" 0 c3doc).TaxDetails =
      [{ Rate := "21.0%", Amount := .floatv 21 }] :=
  ⟨c3doc_eval.1, c3doc_eval.2⟩

/-- C4 counterexample: `normalizeRate("21%")` gives `"21.0%"` (the float
re-formatting appends `.0`), while `normalizeRate(21)` gives `"21%"` — the
two are not equal as the claim states. -/
theorem C4_counterexample :
    ImageProcessor.get_tax_rate_value (some (.str "21%")) = some "21.0%" ∧
    ImageProcessor.get_tax_rate_value (some (.intv 21)) = some "21%" ∧
    (some "21.0%" : Option String) ≠ some "21%" := by
  decide

/-- C4 (amended): textual rates are stripped of `%` and whitespace and
re-parsed, success formatting the parsed float (so an integral text gains
`.0`: `"21%" ↦ "21.0%"`, `"21.5 %" ↦ "21.5%"`), integer input formats
directly (`21 ↦ "21%"`), and parse failure returns the original text
untrimmed. -/
theorem C4_normalizer (s : String) :
    ImageProcessor.get_tax_rate_value (some (.str "21%")) = some "21.0%" ∧
    ImageProcessor.get_tax_rate_value (some (.str "21.5 %")) = some "21.5%" ∧
    ImageProcessor.get_tax_rate_value (some (.intv 21)) = some "21%" ∧
    (s ≠ "" → pyParseFloat (pyStrip (pyRemovePercent s)) = none →
      ImageProcessor.get_tax_rate_value (some (.str s)) = some s) := by
  refine ⟨by decide, by decide, by decide, fun hs hp => ?_⟩
  simp [ImageProcessor.get_tax_rate_value, pyTruthy, hs, hp]

/-- C4 witness: a non-numeric rate text is returned unchanged. -/
theorem C4_witness :
    ImageProcessor.get_tax_rate_value (some (.str "sin IVA")) = some "sin IVA" :=
  (C4_normalizer "sin IVA").2.2.2 (by decide) (by decide)

/-- A document with no fields at all: every key field falls back to its
pipeline placeholder (`'Empresa No Identificada'`, a generated
`FACT_<time>_<idx>` id, total `0`). -/
def c5doc : AzureDocument :=
  { fields := [], taxDetails := none, items := none }

/-- C5 counterexample: the record extracted from an empty document is fully
defaulted — all three key fields hold pipeline placeholders, so it has 0
real key fields per the spec's wording — yet the validator returns `true`:
its hard-coded literal list does not recognize `'Empresa No Identificada'`
or generated `FACT_*` ids as placeholders.  The claimed iff fails at this
record. -/
theorem C5_counterexample :
    ImageProcessor.validate_extracted_data
      (some (ImageProcessor.processDocument "120000" 0 c5doc)) = true ∧
    specRealCount (ImageProcessor.processDocument "120000" 0 c5doc) = 0 ∧
    ¬ (ImageProcessor.validate_extracted_data
        (some (ImageProcessor.processDocument "120000" 0 c5doc)) = true ↔
       2 ≤ specRealCount (ImageProcessor.processDocument "120000" 0 c5doc)) := by
  decide

/-- C5 (amended): the validator returns `isValid = true` iff at least 2 of
the three key fields {vendorName, invoiceId, invoiceTotal} hold a truthy
value outside its hard-coded literal list `['No identificado',
'Sin número', 'None', '', 0]` (a missing record is rejected); the
pipeline's actual placeholder defaults are not in that list and count as
real, so a fully-defaulted record — 0 real key fields per the spec's
placeholder notion — still validates as `true`. -/
theorem C5_validator_literal_iff :
    ImageProcessor.validate_extracted_data none = false ∧
    (∀ d : ImageProcessor.ProcessedInvoice,
      (ImageProcessor.validate_extracted_data (some d) = true ↔ 2 ≤ litRealCount d)) ∧
    ImageProcessor.validate_extracted_data
      (some (ImageProcessor.processDocument "120000" 0 c5doc)) = true ∧
    specRealCount (ImageProcessor.processDocument "120000" 0 c5doc) = 0 := by
  refine ⟨rfl, fun d => ?_, by decide, by decide⟩
  have hc : [d.VendorName, d.InvoiceId, d.InvoiceTotal].countP
      (fun v => pyTruthy v && ! ImageProcessor.value_in_bad_list v) = litRealCount d := by
    unfold litRealCount
    exact List.countP_congr (fun v _ => by rw [real_field_eq v])
  simp [ImageProcessor.validate_extracted_data, hc]

/-- C5 witness: a record with exactly two fields passing the literal-list
check validates. -/
theorem C5_witness :
    ImageProcessor.validate_extracted_data
      (some (ImageProcessor.fallback_record "f.pdf" "err" "120000")) = true :=
  ((C5_validator_literal_iff.2.1
      (ImageProcessor.fallback_record "f.pdf" "err" "120000")).mpr (by decide))

/-- C6 counterexample: a record that fails validation is still emitted, but
with its original `'enhanced'` confidence level — it is not re-tagged with
the `low` tier as the claim states. -/
theorem C6_counterexample :
    ImageProcessor.validate_extracted_data
      (some (ImageProcessor.processDocument "120000" 0 c6doc)) = false ∧
    ImageProcessor.process_image "120000" "f.pdf" (.ok [c6doc]) =
      [ImageProcessor.processDocument "120000" 0 c6doc] ∧
    (ImageProcessor.processDocument "120000" 0 c6doc).confidence_level = "enhanced" ∧
    ("enhanced" : String) ≠ "low" := by
  refine ⟨by decide, by decide, rfl, by decide⟩

/-- C6 (amended): every input document's record appears in the extraction
output (the loop appends it whether or not it validates), and it keeps the
`'enhanced'` confidence level the extraction assigned — the caller does not
re-tag invalid records with the `low` tier. -/
theorem C6_retention (now : String) (docs : List AzureDocument) :
    ImageProcessor.processDocsLoop now 0 docs = spec_retain_all now 0 docs ∧
    ∀ r ∈ ImageProcessor.processDocsLoop now 0 docs,
      r.confidence_level = "enhanced" :=
  ⟨processDocsLoop_eq_retain now docs 0,
   fun r hr => processDocsLoop_confidence now docs 0 r hr⟩

/-- C6 witness: the failing-validation document's record is retained with
the `'enhanced'` tag. -/
theorem C6_witness :
    ImageProcessor.processDocsLoop "120000" 0 [c6doc] =
      spec_retain_all "120000" 0 [c6doc] ∧
    (ImageProcessor.processDocument "120000" 0 c6doc).confidence_level =
      "enhanced" :=
  ⟨(C6_retention "120000" [c6doc]).1,
   (C6_retention "120000" [c6doc]).2
     (ImageProcessor.processDocument "120000" 0 c6doc) (by decide)⟩

/-- C7 counterexample: the filenames `foo_1.pdf`, `foo_2.pdf`, `foo_3.pdf`
produce no page group at all — each is classified as a single file, so no
`PageGroup` named `"foo"` with pages `[1,2,3]` exists. -/
theorem C7_counterexample :
    Main.classify_files ["foo_1.pdf", "foo_2.pdf", "foo_3.pdf"] =
      .ok { groups := [], singles := ["foo_1.pdf", "foo_2.pdf", "foo_3.pdf"] } := by
  rfl

/-- C7 (amended): grouping applies only to the explicit multipage protocol
`multipage_<groupid>_page_<n>.<ext>`: those filenames produce exactly one
group (with pages sorted ascending by the captured page number), and any
group's page list is sorted ascending after the ordering step. -/
theorem C7_grouping (pages : List (String × Int)) :
    Main.classify_and_sort
        ["multipage_foo_page_2.pdf", "multipage_foo_page_1.pdf",
         "multipage_foo_page_3.pdf"] =
      .ok { groups := [("foo", [("multipage_foo_page_1.pdf", 1),
                                ("multipage_foo_page_2.pdf", 2),
                                ("multipage_foo_page_3.pdf", 3)])],
            singles := [] } ∧
    List.Sorted (fun a b : String × Int => a.2 ≤ b.2)
      (Main.sort_group_pages pages) :=
  ⟨rfl, sorted_sort_group_pages pages⟩

/-- C8 counterexample: two invoices with empty vendor names from two
different source files are merged by the simplified generator into the one
shared bucket `"Empresa No Identificada"` — not two distinct synthetic
hash-keyed buckets. -/
theorem C8_counterexample :
    ExcelSimple.group_empresas_simple [c8rec1, c8rec2] =
      [("Empresa No Identificada", [c8rec1, c8rec2])] := by
  decide

/-- C8 (amended): the simplified generator used by the batch endpoint maps
every empty-vendor invoice to the single shared bucket, while the legacy
`generate_excel` assigns `"Empresa_No_Identificada_" + 4-digit
(hash(sourceFile) mod 10000)`, which separates two empty-vendor invoices
exactly when their source files' hashes differ modulo 10000. -/
theorem C8_buckets (pyHash : String → Int) (r1 r2 : SimpleRec)
    (h1 : r1.VendorName = "") (h2 : r2.VendorName = "") :
    (ExcelSimple.group_empresas_simple [r1, r2]).map Prod.fst =
      ["Empresa No Identificada"] ∧
    (pyHash r1.archivo_origen % 10000 ≠ pyHash r2.archivo_origen % 10000 →
      (ExcelLegacy.group_empresas_legacy pyHash [r1, r2]).length = 2) := by
  constructor
  · simp [ExcelSimple.group_empresas_simple, ExcelSimple.empresa_key_simple,
      h1, h2, addToGroup]
  · intro hne
    have hb1 : 0 ≤ pyHash r1.archivo_origen % 10000 := Int.emod_nonneg _ (by norm_num)
    have hb2 : 0 ≤ pyHash r2.archivo_origen % 10000 := Int.emod_nonneg _ (by norm_num)
    have hl1 : pyHash r1.archivo_origen % 10000 < 10000 :=
      Int.emod_lt_of_pos _ (by norm_num)
    have hl2 : pyHash r2.archivo_origen % 10000 < 10000 :=
      Int.emod_lt_of_pos _ (by norm_num)
    have hkey : ExcelLegacy.empresa_key_legacy pyHash r1.VendorName r1.archivo_origen ≠
        ExcelLegacy.empresa_key_legacy pyHash r2.VendorName r2.archivo_origen := by
      simp only [ExcelLegacy.empresa_key_legacy, h1, h2, if_pos rfl]
      intro hk
      have := synth_key_inj _ _ (by omega) (by omega) hk
      omega
    simp [ExcelLegacy.group_empresas_legacy, addToGroup, hkey]

/-- C8 witness: with a concrete hash function whose residues differ, the
legacy generator separates the two unidentified invoices. -/
theorem C8_witness :
    (ExcelSimple.group_empresas_simple [c8rec1, c8rec2]).map Prod.fst =
      ["Empresa No Identificada"] ∧
    (ExcelLegacy.group_empresas_legacy (fun s => if s = "a.jpg" then 1 else 2)
      [c8rec1, c8rec2]).length = 2 :=
  ⟨(C8_buckets (fun s => if s = "a.jpg" then 1 else 2) c8rec1 c8rec2 rfl rfl).1,
   (C8_buckets (fun s => if s = "a.jpg" then 1 else 2) c8rec1 c8rec2 rfl rfl).2
     (by decide)⟩

/-- C9: for every vendor bucket, the summed values of the rate → amount tax
summary equal the sum of all tax-detail amounts across the bucket's member
invoices, in both the simplified and the legacy summary function (rates are
matched by exact string equality). -/
theorem C9_conservation (facturas : List SimpleRec) :
    ((ExcelSimple.calcular_resumen_iva_completo facturas).map Prod.snd).sum =
      (facturas.map (fun f => (f.TaxDetails.map STax.Amount).sum)).sum ∧
    ((ExcelLegacy.calcular_resumen_iva_empresa facturas).map Prod.snd).sum =
      (facturas.map (fun f => (f.TaxDetails.map STax.Amount).sum)).sum := by
  constructor
  · unfold ExcelSimple.calcular_resumen_iva_completo
    rw [resumen_fold_sum]
    simp
  · unfold ExcelLegacy.calcular_resumen_iva_empresa
    rw [resumen_fold_sum]
    simp

/-- C10: whenever a tax entry's rate field is absent or normalizes to a
falsy value, the emitted tax detail carries the hard-coded default rate
string `'21%'` while the entry's extracted amount is kept. -/
theorem C10_default_rate (entries : List TaxEntryDoc) (i : Nat)
    (h : i < entries.length)
    (hr : ImageProcessor.get_tax_rate_value (entries.get ⟨i, h⟩).Rate = none ∨
          ImageProcessor.get_tax_rate_value (entries.get ⟨i, h⟩).Rate = some "") :
    ∃ h2 : i < (ImageProcessor.extract_tax_details_img entries).length,
      ((ImageProcessor.extract_tax_details_img entries).get ⟨i, h2⟩).Rate = "21%" ∧
      ((ImageProcessor.extract_tax_details_img entries).get ⟨i, h2⟩).Amount =
        ImageProcessor.get_field_value (entries.get ⟨i, h⟩).Amount (.intv 0) := by
  have hlen : (ImageProcessor.extract_tax_details_img entries).length =
      entries.length := by
    simp [ImageProcessor.extract_tax_details_img]
  refine ⟨by omega, ?_, ?_⟩
  · simp only [ImageProcessor.extract_tax_details_img, List.get_eq_getElem,
      List.getElem_map]
    simp only [List.get_eq_getElem] at hr
    rcases hr with hr | hr
    · simp [hr]
    · simp [hr]
  · simp only [ImageProcessor.extract_tax_details_img, List.get_eq_getElem,
      List.getElem_map]

/-- C10 witness: an entry with no rate field and amount `5` yields the
default `'21%'` with the amount kept. -/
theorem C10_witness :
    ∃ h2 : 0 < (ImageProcessor.extract_tax_details_img
        [{ Rate := none, Amount := some (.floatv 5) }]).length,
      ((ImageProcessor.extract_tax_details_img
          [{ Rate := none, Amount := some (.floatv 5) }]).get ⟨0, h2⟩).Rate = "21%" ∧
      ((ImageProcessor.extract_tax_details_img
          [{ Rate := none, Amount := some (.floatv 5) }]).get ⟨0, h2⟩).Amount =
        ImageProcessor.get_field_value
          (([{ Rate := none, Amount := some (.floatv 5) }] :
              List TaxEntryDoc).get ⟨0, by decide⟩).Amount (.intv 0) :=
  C10_default_rate [{ Rate := none, Amount := some (.floatv 5) }] 0 (by decide)
    (Or.inl (by decide))

end FacturaV
